import Mathlib

/-!
Verification development for the DRS4 acquisition-and-decode pipeline
(`drs4` repository).  The Python sources under `drs4/specs/vdif.py`,
`drs4/specs/zarr.py` and `drs4/daq/udp.py` are shallowly embedded below:
pure functions become Lean functions, numpy datetime arithmetic is modelled
as explicit Gregorian-calendar arithmetic over nanoseconds since the Unix
epoch, and fallible code returns `Except`.
-/

set_option autoImplicit false

namespace Drs4

/-- Python exceptions raised by the embedded code, distinguished by their
type and message, mirroring `RuntimeError`, `ValueError`, `FileExistsError`
and `socket.timeout`/`TimeoutError` in the sources. -/
inductive PyErr where
  | valueError (msg : String)
  | runtimeError (msg : String)
  | fileExistsError (path : String)
  | timeoutError
  deriving DecidableEq

/-! ### VDIF header words (`drs4/specs/vdif.py`, class `Word`)

A VDIF header word is a little-endian unsigned 32-bit integer (`u4` in the
`np.fromfile` dtype); we carry it as a `Nat`.  `Word.__getitem__` slices the
bit range `[start, stop)` as `(data >> start) & ((1 << stop - start) - 1)`. -/

/-- Embeds `Word.__getitem__`: slice bits `[start, stop)` of a header word. -/
def wordSlice (data start stop : ℕ) : ℕ :=
  (data >>> start) &&& ((1 <<< (stop - start)) - 1)

/-- One 1,056-byte VDIF frame after `np.fromfile`: eight 32-bit header words
and a 256-sample payload (`("data", ("f4", 256))`).  The payload sample type
is abstract (`α`): the decoder only routes samples, never computes on them. -/
structure Frame (α : Type) where
  word0 : ℕ
  word1 : ℕ
  word2 : ℕ
  word3 : ℕ
  word4 : ℕ
  word5 : ℕ
  word6 : ℕ
  word7 : ℕ
  data : List α
  deriving DecidableEq

/-- Field `seconds = word_0[0:30]` in `open_vdif`. -/
def seconds {α : Type} (f : Frame α) : ℕ := wordSlice f.word0 0 30

/-- Field `frame_num = word_1[0:24]` in `open_vdif`. -/
def frameNum {α : Type} (f : Frame α) : ℕ := wordSlice f.word1 0 24

/-- Field `ref_epoch = word_1[24:30]` in `open_vdif`. -/
def refEpoch {α : Type} (f : Frame α) : ℕ := wordSlice f.word1 24 30

/-! ### numpy datetime model

`open_vdif` computes
`REF_EPOCH_ORIGIN + REF_EPOCH_UNIT * ref_epoch + 1s * seconds + integ_time ms * (frame_num // 2)`
with `REF_EPOCH_ORIGIN = np.datetime64("2000", "Y")` and
`REF_EPOCH_UNIT = np.timedelta64(6, "M")`.  numpy evaluates this left to
right: the origin (year unit) plus a month-unit timedelta yields a
month-unit datetime (calendar months since 1970-01); adding the
second-unit timedelta converts that month-unit datetime to the timestamp
of the first instant of the month (Gregorian, UTC, no leap seconds) and
then adds seconds, and likewise for milliseconds.  The result is stored as
`M8[ns]`.  We model datetimes as nanoseconds since 1970-01-01T00:00:00 UTC. -/

/-- Gregorian leap-year test. -/
def isLeap (y : ℕ) : Bool := y % 4 == 0 && (y % 100 != 0 || y % 400 == 0)

/-- Number of leap years in `[1, y]` (Gregorian rule). -/
def leapsUpTo (y : ℕ) : ℕ := y / 4 - y / 100 + y / 400

/-- Days from 1970-01-01 to January 1st of year `y` (for `y ≥ 1970`). -/
def daysBeforeYear (y : ℕ) : ℕ :=
  365 * (y - 1970) + (leapsUpTo (y - 1) - leapsUpTo 1969)

/-- Days from January 1st to the first of month `mo` (0-based) in a
non-leap year. -/
def daysBeforeMonth : ℕ → ℕ
  | 0 => 0
  | 1 => 31
  | 2 => 59
  | 3 => 90
  | 4 => 120
  | 5 => 151
  | 6 => 181
  | 7 => 212
  | 8 => 243
  | 9 => 273
  | 10 => 304
  | 11 => 334
  | _ => 365

/-- Days from 1970-01-01 to the first day of the month with numpy month
index `m` (months since 1970-01). -/
def monthIndexToDays (m : ℕ) : ℕ :=
  let y := 1970 + m / 12
  let mo := m % 12
  daysBeforeYear y + daysBeforeMonth mo + (if 2 ≤ mo ∧ isLeap y then 1 else 0)

def nsPerDay : ℕ := 86400 * 1000000000

/-- Nanoseconds since the Unix epoch of the first instant of numpy month
index `m` (the value of a month-unit `datetime64` converted to `M8[ns]`). -/
def monthStartNs (m : ℕ) : ℕ := monthIndexToDays m * nsPerDay

/-- Constant `np.datetime64("2000", "Y")` expressed in numpy month units
(months since 1970-01): 30 years of 12 months. -/
def refEpochOriginMonths : ℕ := 360

/-- The absolute timestamp (ns since the Unix epoch) that `open_vdif`
assigns to a frame, given the resolved spectral integration time in ms:
`REF_EPOCH_ORIGIN + REF_EPOCH_UNIT * ref_epoch + np.timedelta64(1, "s") * seconds + np.timedelta64(integ_time, "ms") * (frame_num // 2)`. -/
def vdifTimeNs {α : Type} (integTime : ℕ) (f : Frame α) : ℕ :=
  monthStartNs (refEpochOriginMonths + 6 * refEpoch f)
    + 1000000000 * seconds f
    + 1000000 * integTime * (frameNum f / 2)

/-! ### Spec-side timestamp formula (for claim C1)

Written from the specification's words, independently of the code path
above: `timestamp = origin_epoch + 6_months * ref_epoch_field + 1_second *
seconds_field + integ_time_ms * (frame_number // 2)`, where `origin_epoch`
is the start of year 2000 (UTC), the fields are the plain bit ranges
word 0 bits [0,30), word 1 bits [0,24) and word 1 bits [24,30), and
`6_months` is a calendar half-year: `k` half-years after 2000-01-01 land
on January 1st of year `2000 + k/2`, plus the January-to-July distance
(181 or 182 days) when `k` is odd. -/

/-- Start of year 2000 (UTC) in ns since the Unix epoch. -/
def specOriginNs : ℕ := daysBeforeYear 2000 * nsPerDay

/-- Calendar offset of `k` six-month units after 2000-01-01, in ns. -/
def specHalfYearNs (k : ℕ) : ℕ :=
  ((daysBeforeYear (2000 + k / 2) - daysBeforeYear 2000)
    + (if k % 2 = 1 then 181 + (if isLeap (2000 + k / 2) then 1 else 0) else 0))
    * nsPerDay

/-- Spec-side field extraction: bits `[0,30)` of word 0. -/
def specSeconds {α : Type} (f : Frame α) : ℕ := f.word0 % 2 ^ 30

/-- Spec-side field extraction: bits `[0,24)` of word 1. -/
def specFrameNumber {α : Type} (f : Frame α) : ℕ := f.word1 % 2 ^ 24

/-- Spec-side field extraction: bits `[24,30)` of word 1. -/
def specRefEpoch {α : Type} (f : Frame α) : ℕ := f.word1 / 2 ^ 24 % 2 ^ 6

/-- Spec-side timestamp formula. -/
def specTimeNs {α : Type} (integTime : ℕ) (f : Frame α) : ℕ :=
  specOriginNs + specHalfYearNs (specRefEpoch f)
    + 1000000000 * specSeconds f
    + 1000000 * integTime * (specFrameNumber f / 2)

/-- The enumerated set of valid spectral integration times in ms
(`get_args(IntegTime)` = `(100, 200, 500, 1000)`). -/
def integTimes : List ℕ := [100, 200, 500, 1000]

/-! ### Helper lemmas -/

theorem wordSlice_eq_div_mod (data start stop : ℕ) :
    wordSlice data start stop = data / 2 ^ start % 2 ^ (stop - start) := by
  unfold wordSlice
  rw [Nat.shiftLeft_eq, one_mul, Nat.and_pow_two_sub_one_eq_mod,
    Nat.shiftRight_eq_div_pow]

theorem refEpoch_lt_64 {α : Type} (f : Frame α) : refEpoch f < 64 := by
  rw [refEpoch, wordSlice_eq_div_mod]
  exact Nat.mod_lt _ (by norm_num)

/-- The month-table calendar value agrees with the spec-side half-year
formula on the whole 6-bit range of the `ref_epoch` field. -/
theorem monthStartNs_eq_spec : ∀ k < 64,
    monthStartNs (refEpochOriginMonths + 6 * k) = specOriginNs + specHalfYearNs k := by
  decide

/-! ### Integration-time inference (`infer_integ_time`, `drs4/specs/vdif.py`)

`max(frame_num)` over an empty numpy array raises Python's builtin
`ValueError: max() arg is an empty sequence`; otherwise the source raises
`RuntimeError` when fewer than two frames attain the maximum, raises
`ValueError` when `2000 // (frame_max + 1)` is not in the enumerated set,
and returns the quotient otherwise. -/

/-- Python's builtin `max` over a sequence (here the `frame_num` array). -/
def pyMax (xs : List ℕ) : Except PyErr ℕ :=
  match xs with
  | [] => .error (.valueError "max() arg is an empty sequence")
  | x :: rest => .ok (rest.foldl Nat.max x)

/-- Embeds `infer_integ_time`: infer the spectral integration time in ms from the
batch of frame numbers. -/
def inferIntegTime (frameNums : List ℕ) : Except PyErr ℕ :=
  match pyMax frameNums with
  | .error e => .error e
  | .ok frameMax =>
    if (frameNums.countP (· == frameMax)) < 2 then
      .error (.runtimeError "Could not infer spectral integration time.")
    else if 2000 / (frameMax + 1) ∈ integTimes then
      .ok (2000 / (frameMax + 1))
    else
      .error (.valueError "Spectral integration time must be 100|200|500|1000.")

/-! ### DataArray model (`VDIF.new` / `xr.concat` / `xr.align`)

A decoded `xarray.DataArray` of the VDIF spec: a `time` index (ns since the
Unix epoch), a `chan` index, the auto-correlation rows (one per timestamp;
`none` models a NaN fill introduced by joins), and the `integ_time`
attribute. -/

structure DataArray (α : Type) where
  time : List ℕ
  chan : List ℕ
  auto : List (List (Option α))
  integ_time : ℕ
  deriving DecidableEq

/-- Constant `CHAN_FIRST_HALF = np.arange(0, 256)`. -/
def CHAN_FIRST_HALF : List ℕ := List.range' 0 256

/-- Constant `CHAN_SECOND_HALF = np.arange(256, 512)`. -/
def CHAN_SECOND_HALF : List ℕ := List.range' 256 256

/-- Constant `VDIF_FRAME_BYTES = VDIF_HEADER_BYTES + VDIF_DATA_BYTES = 32 + 1024`. -/
def VDIF_FRAME_BYTES : ℕ := 32 + 1024

/-- The xarray join policies (`XarrayJoin` literal). -/
inductive Join where
  | outer
  | inner
  | left
  | right
  | exact
  | override
  deriving DecidableEq

/-- The first `VDIF.new(...)` in `open_vdif`: frames of even frame number,
first-half channels. -/
def firstHalfDA {α : Type} (frames : List (Frame α)) (integTime : ℕ) : DataArray α :=
  { time := (frames.filter fun f => frameNum f % 2 == 0).map (vdifTimeNs integTime)
    chan := CHAN_FIRST_HALF
    auto := (frames.filter fun f => frameNum f % 2 == 0).map fun f => f.data.map some
    integ_time := integTime }

/-- The second `VDIF.new(...)` in `open_vdif`: frames of odd frame number,
second-half channels. -/
def secondHalfDA {α : Type} (frames : List (Frame α)) (integTime : ℕ) : DataArray α :=
  { time := (frames.filter fun f => frameNum f % 2 == 1).map (vdifTimeNs integTime)
    chan := CHAN_SECOND_HALF
    auto := (frames.filter fun f => frameNum f % 2 == 1).map fun f => f.data.map some
    integ_time := integTime }

/-- The joined time index produced by xarray's alignment of two time
indexes under a join policy (`exact` and `override` keep the first index;
their own failure conditions are checked by `alignTimes`). -/
def joinTimes (join : Join) (t1 t2 : List ℕ) : List ℕ :=
  match join with
  | .inner => t1.filter (· ∈ t2)
  | .outer => t1 ++ t2.filter (· ∉ t1)
  | .left => t1
  | .right => t2
  | .exact => t1
  | .override => t1

/-- Alignment failure conditions: `join="exact"` requires equal time
indexes, `join="override"` requires equal index sizes. -/
def alignTimes (join : Join) (t1 t2 : List ℕ) : Except PyErr (List ℕ) :=
  match join with
  | .exact =>
    if t1 = t2 then .ok t1
    else .error (.valueError "cannot align objects with join='exact'")
  | .override =>
    if t1.length = t2.length then .ok t1
    else .error (.valueError "cannot override indexes of different sizes")
  | _ => .ok (joinTimes join t1 t2)

/-- The auto-correlation row of a DataArray at timestamp `t`: the stored
row when `t` is on the time index, otherwise a NaN fill along `chan`. -/
def rowAt {α : Type} (da : DataArray α) (t : ℕ) : List (Option α) :=
  match (da.time.zip da.auto).lookup t with
  | some row => row
  | none => List.replicate da.chan.length none

/-- Reindex a DataArray onto a new time index (NaN-filling missing rows),
as xarray alignment does; attributes are kept. -/
def reindex {α : Type} (da : DataArray α) (t : List ℕ) : DataArray α :=
  { da with time := t, auto := t.map (rowAt da) }

/-- Embeds `xr.align(a, b, join=join)` on the shared `time` dimension. -/
def alignPair {α : Type} (join : Join) (a b : DataArray α) :
    Except PyErr (DataArray α × DataArray α) :=
  match alignTimes join a.time b.time with
  | .error e => .error e
  | .ok t => .ok (reindex a t, reindex b t)

/-- Embeds `xr.concat((a, b), dim="chan", join=join)`: align the time indexes,
then concatenate the channel axes; attributes of the first input are kept. -/
def concatChan {α : Type} (join : Join) (a b : DataArray α) :
    Except PyErr (DataArray α) :=
  match alignPair join a b with
  | .error e => .error e
  | .ok (a', b') =>
    .ok { time := a'.time
          chan := a'.chan ++ b'.chan
          auto := (a'.auto.zip b'.auto).map fun r => r.1 ++ r.2
          integ_time := a'.integ_time }

/-- Embeds `if integ_time is None: integ_time = infer_integ_time(frame_num)` in
`open_vdif`. -/
def resolveIntegTime (integTime : Option ℕ) (frameNums : List ℕ) :
    Except PyErr ℕ :=
  match integTime with
  | none => inferIntegTime frameNums
  | some t => .ok t

/-- Embeds `open_vdif`: decode a batch of frames (the file contents) into a
DataArray, resolving the spectral integration time if not supplied. -/
def open_vdif {α : Type} (frames : List (Frame α)) (integTime : Option ℕ)
    (join : Join) : Except PyErr (DataArray α) :=
  match resolveIntegTime integTime (frames.map frameNum) with
  | .error e => .error e
  | .ok integ =>
    if integ ∈ integTimes then
      concatChan join (firstHalfDA frames integ) (secondHalfDA frames integ)
    else
      .error (.valueError "Spectral integration time must be 100|200|500|1000.")

/-! ### Zarr dataset assembly (`open_vdifs`, `drs4/specs/zarr.py`)

Frequencies are `0.02 GHz * channel`; the source stores them as floats but
the decoder only builds and orders them, so we carry them as rationals. -/

/-- Constant `FREQ_INTERVAL = 0.02` GHz. -/
def FREQ_INTERVAL : ℚ := 2 / 100

/-- Constant `FREQ_INNER = FREQ_INTERVAL * np.arange(512 * 0, 512 * 1)`. -/
def FREQ_INNER : List ℚ :=
  (List.range' 0 512).map fun k : ℕ => FREQ_INTERVAL * (k : ℚ)

/-- Constant `FREQ_OUTER = FREQ_INTERVAL * np.arange(512 * 1, 512 * 2)`. -/
def FREQ_OUTER : List ℚ :=
  (List.range' 512 512).map fun k : ℕ => FREQ_INTERVAL * (k : ℚ)

/-- Literals `get_args(Chassis)` = `(1, 2)`. -/
def chassisVals : List ℕ := [1, 2]

/-- Literals `get_args(Interface)` = `(1, 2)`. -/
def interfaceVals : List ℕ := [1, 2]

/-- Literals `get_args(FreqRange)` = `("inner", "outer")`. -/
def freqRanges : List String := ["inner", "outer"]

/-- The assembled `Zarr` dataset (`Zarr.new(...)` in `open_vdifs`):
`cross_2sb` carries `none` entries for its NaN fill. -/
structure Dataset (α : Type) where
  time : List ℕ
  chan : List ℕ
  freq : List ℚ
  signal_sb : List String
  signal_chan : List ℤ
  auto_usb : List (List (Option α))
  auto_lsb : List (List (Option α))
  cross_2sb : List (List (Option α))
  chassis : ℕ
  interface : ℕ
  integ_time : ℕ
  deriving DecidableEq

/-- Embeds `open_vdifs`: decode the USB and LSB VDIF files and merge them into a
single dataset. -/
def open_vdifs {α : Type} (usb lsb : List (Frame α)) (chassis interface : ℕ)
    (freq_range : String) (integ_time : Option ℕ) (signal_sb : Option String)
    (signal_chan : Option ℤ) (join : Join) : Except PyErr (Dataset α) :=
  if chassis ∉ chassisVals then
    .error (.valueError "Chassis number must be 1|2.")
  else if interface ∉ interfaceVals then
    .error (.valueError "Interface number must be 1|2.")
  else if freq_range ∉ freqRanges then
    .error (.valueError "Spectral integration time must be inner|outer.")
  else
    match open_vdif usb integ_time join with
    | .error e => .error e
    | .ok daUsb0 =>
    match open_vdif lsb integ_time join with
    | .error e => .error e
    | .ok daLsb0 =>
    match alignPair join daUsb0 daLsb0 with
    | .error e => .error e
    | .ok (daUsb, daLsb) =>
    if daUsb.integ_time ≠ daLsb.integ_time then
      .error (.runtimeError "USB/LSB spectral integration times must be same.")
    else
      .ok { time := daUsb.time
            chan := daUsb.chan
            freq := if freq_range = "inner" then FREQ_INNER else FREQ_OUTER.reverse
            signal_sb := List.replicate daUsb.time.length (signal_sb.getD "NA")
            signal_chan := List.replicate daUsb.time.length (signal_chan.getD (-1))
            auto_usb := daUsb.auto
            auto_lsb := daLsb.auto
            cross_2sb := daUsb.time.map fun _ => List.replicate daUsb.chan.length none
            chassis := chassis
            interface := interface
            integ_time := daUsb.integ_time }

/-! ### UDP capture (`dump`, `drs4/daq/udp.py`)

`dump` first checks `if not overwrite and Path(vdif).exists(): raise
FileExistsError(vdif)`, then opens the output file and the socket, and
loops `while cancel is None or not cancel.is_set()`: receive one datagram;
write it verbatim when its length equals `VDIF_FRAME_BYTES`, otherwise log
a truncated-frame warning.  The filesystem is a predicate on paths, the
datagrams are the (finite) arrival sequence, and `cancel k` is the value
the shared cancellation flag is observed to have at the `k`-th check of
the loop condition. -/

/-- Observable events of one `dump` call. -/
inductive Ev where
  | openFile
  | openSocket
  | recv (d : List ℕ)
  | write (d : List ℕ)
  | warnTruncated
  deriving DecidableEq

/-- The receive loop of `dump`: the `k`-th iteration first checks the
cancellation flag and exits if it is set, then receives datagram `k`,
then writes it (full frame) or logs a warning (truncated). -/
def dumpLoop (cancel : ℕ → Bool) : ℕ → List (List ℕ) → List Ev
  | _, [] => []
  | k, d :: rest =>
    if cancel k then []
    else
      .recv d ::
        ((if d.length == VDIF_FRAME_BYTES then [.write d] else [.warnTruncated])
          ++ dumpLoop cancel (k + 1) rest)

/-- Embeds `dump`: the whole capture worker for one output path. -/
def dump (vdif : String) (fs : String → Bool) (overwrite : Bool)
    (cancel : ℕ → Bool) (dgs : List (List ℕ)) : Except PyErr (List Ev) :=
  if !overwrite && fs vdif then .error (.fileExistsError vdif)
  else .ok (.openFile :: .openSocket :: dumpLoop cancel 0 dgs)

/-- The filesystem after a `dump` call: a successful call has created the
output file. -/
def dumpFS (vdif : String) (fs : String → Bool) (overwrite : Bool)
    (cancel : ℕ → Bool) (dgs : List (List ℕ)) : String → Bool :=
  match dump vdif fs overwrite cancel dgs with
  | .error _ => fs
  | .ok _ => fun p => p == vdif || fs p

/-- The datagrams written to the output file during a trace. -/
def fileWrites (evs : List Ev) : List (List ℕ) :=
  evs.filterMap fun e => match e with
    | .write d => some d
    | _ => none

/-- The datagrams received during a trace. -/
def recvs (evs : List Ev) : List (List ℕ) :=
  evs.filterMap fun e => match e with
    | .recv d => some d
    | _ => none

/-- The number of receives the loop performs given the cancellation
schedule (checks at indexes `k, k+1, ...`) and the number of datagrams
available: determined before looking at any datagram contents. -/
def stopCount (cancel : ℕ → Bool) : ℕ → ℕ → ℕ
  | _, 0 => 0
  | k, n + 1 => if cancel k then 0 else stopCount cancel (k + 1) n + 1

/-! ### Concrete test data -/

/-- A synthetic frame with the given header words 0 and 1 and a one-sample
payload. -/
def testFrame (w0 w1 : ℕ) : Frame ℕ :=
  { word0 := w0, word1 := w1, word2 := 0, word3 := 0, word4 := 0, word5 := 0
    word6 := 0, word7 := 0, data := [7] }

/-- Extract the success value of an `Except`, with a fallback. -/
def okOr {ε α : Type} (e : Except ε α) (d : α) : α :=
  match e with
  | .ok x => x
  | .error _ => d

/-- Fallback DataArray for `okOr`. -/
def emptyDA : DataArray ℕ :=
  { time := [], chan := [], auto := [], integ_time := 0 }

/-- Fallback Dataset for `okOr`. -/
def emptyDS : Dataset ℕ :=
  { time := [], chan := [], freq := [], signal_sb := [], signal_chan := []
    auto_usb := [], auto_lsb := [], cross_2sb := [], chassis := 0
    interface := 0, integ_time := 0 }

/-- A synthetic USB capture: two frames with frame number 19, so the
inferred integration time is `2000 / 20 = 100` ms. -/
def usbFrames : List (Frame ℕ) := [testFrame 0 19, testFrame 0 19]

/-- A synthetic LSB capture: two frames with frame number 9, so the
inferred integration time is `2000 / 10 = 200` ms. -/
def lsbFrames : List (Frame ℕ) := [testFrame 0 9, testFrame 0 9]

/-- The decoded USB DataArray of `usbFrames`. -/
def usbDA : DataArray ℕ := okOr (open_vdif usbFrames none .inner) emptyDA

/-- The decoded LSB DataArray of `lsbFrames`. -/
def lsbDA : DataArray ℕ := okOr (open_vdif lsbFrames none .inner) emptyDA

/-- The aligned pair of `usbDA` and `lsbDA`. -/
def alignedUsbLsb : DataArray ℕ × DataArray ℕ :=
  okOr (alignPair .inner usbDA lsbDA) (emptyDA, emptyDA)

/-- A successfully assembled dataset with `freq_range = "inner"`. -/
def innerDS : Dataset ℕ :=
  okOr (open_vdifs usbFrames usbFrames 1 1 "inner" (some 100) none none .inner) emptyDS

/-- A successfully assembled dataset with `freq_range = "outer"`. -/
def outerDS : Dataset ℕ :=
  okOr (open_vdifs usbFrames usbFrames 1 1 "outer" (some 100) none none .inner) emptyDS

/-! ## Theorems -/

theorem seconds_eq_spec {α : Type} (f : Frame α) : seconds f = specSeconds f := by
  rw [seconds, wordSlice_eq_div_mod, specSeconds, pow_zero, Nat.div_one]

theorem frameNum_eq_spec {α : Type} (f : Frame α) : frameNum f = specFrameNumber f := by
  rw [frameNum, wordSlice_eq_div_mod, specFrameNumber, pow_zero, Nat.div_one]

theorem refEpoch_eq_spec {α : Type} (f : Frame α) : refEpoch f = specRefEpoch f := by
  rw [refEpoch, wordSlice_eq_div_mod, specRefEpoch]

/-- C1: for every frame and every valid integration period, the timestamp
reconstructed by `open_vdif` equals the start of year 2000 (UTC) plus
`ref_epoch` (word 1, bits [24,30)) calendar half-years plus `seconds`
(word 0, bits [0,30)) seconds plus `integ_time` milliseconds times
`frame_number // 2` (word 1, bits [0,24), integer division). -/
theorem timestamp_formula {α : Type} (f : Frame α) (integTime : ℕ)
    (h : integTime ∈ integTimes) : vdifTimeNs integTime f = specTimeNs integTime f := by
  have h64 : specRefEpoch f < 64 := Nat.mod_lt _ (by norm_num)
  rw [vdifTimeNs, specTimeNs, seconds_eq_spec, frameNum_eq_spec, refEpoch_eq_spec,
    monthStartNs_eq_spec (specRefEpoch f) h64]

/-- Witness for C1 at a concrete frame: `seconds = 123`, `frame_number =
19`, `ref_epoch = 3`, 100 ms integration. -/
theorem timestamp_formula_witness :
    100 ∈ integTimes
    ∧ vdifTimeNs 100 (testFrame 123 (19 + 3 * 2 ^ 24)) =
        specTimeNs 100 (testFrame 123 (19 + 3 * 2 ^ 24)) :=
  ⟨by decide, timestamp_formula (testFrame 123 (19 + 3 * 2 ^ 24)) 100 (by decide)⟩

/-- C2: when no integration time is supplied, it is inferred as
`2000 / (max frame_number + 1)` ms; with fewer than two frames at the
maximum, inference fails with the (RuntimeError) inference error; an
inferred value outside `{100, 200, 500, 1000}` fails with the
(ValueError) validation error; a supplied value outside the set fails
with the same validation error; the two errors are distinct. -/
theorem integ_time_inference (fns : List ℕ) (m : ℕ) (hm : pyMax fns = .ok m) :
    (fns.countP (· == m) < 2 →
      inferIntegTime fns = .error (.runtimeError "Could not infer spectral integration time."))
    ∧ (2 ≤ fns.countP (· == m) → 2000 / (m + 1) ∉ integTimes →
      inferIntegTime fns =
        .error (.valueError "Spectral integration time must be 100|200|500|1000."))
    ∧ (2 ≤ fns.countP (· == m) → 2000 / (m + 1) ∈ integTimes →
      inferIntegTime fns = .ok (2000 / (m + 1)))
    ∧ (∀ t ∉ integTimes, ∀ (α : Type) (frames : List (Frame α)) (join : Join),
      open_vdif frames (some t) join =
        .error (.valueError "Spectral integration time must be 100|200|500|1000."))
    ∧ PyErr.runtimeError "Could not infer spectral integration time." ≠
        PyErr.valueError "Spectral integration time must be 100|200|500|1000." := by
  refine ⟨?_, ?_, ?_, ?_, by decide⟩
  · intro hcount
    simp [inferIntegTime, hm, hcount]
  · intro hcount hmem
    simp [inferIntegTime, hm, Nat.not_lt.mpr hcount, hmem]
  · intro hcount hmem
    simp [inferIntegTime, hm, Nat.not_lt.mpr hcount, hmem]
  · intro t ht α frames join
    simp [open_vdif, resolveIntegTime, ht]

/-- Witness for C2: a batch with maximum frame number 19 shared by two
frames infers 100 ms; maximum 9 shared by two frames infers 200 ms; a
single frame at the maximum fails inference. -/
theorem integ_time_inference_witness :
    pyMax [19, 19] = .ok 19 ∧ inferIntegTime [19, 19] = .ok 100
    ∧ pyMax [9, 9, 3] = .ok 9 ∧ inferIntegTime [9, 9, 3] = .ok 200
    ∧ pyMax [5, 19] = .ok 19
    ∧ inferIntegTime [5, 19] =
        .error (.runtimeError "Could not infer spectral integration time.") :=
  ⟨rfl, (integ_time_inference [19, 19] 19 rfl).2.2.1 (by decide) (by decide),
    rfl, (integ_time_inference [9, 9, 3] 9 rfl).2.2.1 (by decide) (by decide),
    rfl, (integ_time_inference [5, 19] 19 rfl).1 (by decide)⟩

/-- C10: decoding an empty frame batch without a supplied integration
time fails with Python's empty-`max` ValueError, which is not the typed
inference (RuntimeError) failure, and never succeeds. -/
theorem empty_batch_decode (α : Type) (join : Join) :
    open_vdif ([] : List (Frame α)) none join =
      .error (.valueError "max() arg is an empty sequence")
    ∧ PyErr.valueError "max() arg is an empty sequence" ≠
        PyErr.runtimeError "Could not infer spectral integration time."
    ∧ ∀ da : DataArray α, open_vdif ([] : List (Frame α)) none join ≠ .ok da := by
  refine ⟨rfl, by decide, ?_⟩
  intro da h
  rw [show open_vdif ([] : List (Frame α)) none join =
    .error (.valueError "max() arg is an empty sequence") from rfl] at h
  exact Except.noConfusion h

/-- Witness for C10 at a concrete join policy and sample type. -/
theorem empty_batch_decode_witness :
    open_vdif ([] : List (Frame ℕ)) none .inner =
      .error (.valueError "max() arg is an empty sequence") :=
  (empty_batch_decode ℕ .inner).1

/-- C3: channel-half assignment is a pure function of frame-number
parity: every frame of even frame number contributes its amplitude row at
its timestamp to the first-half series (channels 0-255), every frame of
odd frame number to the second-half series (channels 256-511), and
`open_vdif` is the concatenation of the two series along the channel axis
under the configured join policy. -/
theorem chan_half_assignment {α : Type} (frames : List (Frame α)) (integTime : ℕ)
    (join : Join) (f : Frame α) (hf : f ∈ frames) :
    (frameNum f % 2 = 0 →
      (vdifTimeNs integTime f, f.data.map some) ∈
        ((firstHalfDA frames integTime).time.zip (firstHalfDA frames integTime).auto))
    ∧ (frameNum f % 2 = 1 →
      (vdifTimeNs integTime f, f.data.map some) ∈
        ((secondHalfDA frames integTime).time.zip (secondHalfDA frames integTime).auto))
    ∧ (firstHalfDA frames integTime).chan = CHAN_FIRST_HALF
    ∧ (secondHalfDA frames integTime).chan = CHAN_SECOND_HALF
    ∧ CHAN_FIRST_HALF = List.range' 0 256
    ∧ CHAN_SECOND_HALF = List.range' 256 256
    ∧ (integTime ∈ integTimes →
      open_vdif frames (some integTime) join =
        concatChan join (firstHalfDA frames integTime) (secondHalfDA frames integTime)) := by
  refine ⟨?_, ?_, rfl, rfl, rfl, rfl, ?_⟩
  · intro hpar
    rw [firstHalfDA, List.zip_map']
    exact List.mem_map.mpr ⟨f, List.mem_filter.mpr ⟨hf, by simp [hpar]⟩, rfl⟩
  · intro hpar
    rw [secondHalfDA, List.zip_map']
    exact List.mem_map.mpr ⟨f, List.mem_filter.mpr ⟨hf, by simp [hpar]⟩, rfl⟩
  · intro hintg
    simp [open_vdif, resolveIntegTime, hintg]

/-- Witness for C3: a two-frame batch with frame numbers 2 (even) and 3
(odd). -/
theorem chan_half_assignment_witness :
    testFrame 0 2 ∈ [testFrame 0 2, testFrame 0 3]
    ∧ (vdifTimeNs 100 (testFrame 0 2), (testFrame 0 2).data.map some) ∈
        ((firstHalfDA [testFrame 0 2, testFrame 0 3] 100).time.zip
          (firstHalfDA [testFrame 0 2, testFrame 0 3] 100).auto) :=
  ⟨by decide,
    (chan_half_assignment [testFrame 0 2, testFrame 0 3] 100 .inner
      (testFrame 0 2) (by decide)).1 (by decide)⟩

/-- Structural facts about the receive loop: the file writes are exactly
the received datagrams of full frame size in receive order, the received
datagrams are a prefix of the arrival sequence, and the number of receives
is a function of the cancellation schedule and the number of available
datagrams only. -/
theorem dumpLoop_spec (cancel : ℕ → Bool) :
    ∀ (k : ℕ) (dgs : List (List ℕ)),
      fileWrites (dumpLoop cancel k dgs) =
        (recvs (dumpLoop cancel k dgs)).filter (fun d => d.length == VDIF_FRAME_BYTES)
      ∧ recvs (dumpLoop cancel k dgs) =
          dgs.take (recvs (dumpLoop cancel k dgs)).length
      ∧ (recvs (dumpLoop cancel k dgs)).length = stopCount cancel k dgs.length := by
  intro k dgs
  induction dgs generalizing k with
  | nil => simp [dumpLoop, fileWrites, recvs, stopCount]
  | cons d rest ih =>
    by_cases hc : cancel k
    · simp [dumpLoop, hc, fileWrites, recvs, stopCount]
    · by_cases hd : d.length == VDIF_FRAME_BYTES
      · simpa [dumpLoop, hc, hd, fileWrites, recvs, stopCount] using ih (k + 1)
      · simpa [dumpLoop, hc, hd, fileWrites, recvs, stopCount] using ih (k + 1)

/-- C5: on any successful `dump` call, a received datagram is written to
the file exactly when its length is 1,056 bytes; the file therefore holds
only whole frames, in receive order, and the loop length is insensitive
to datagram contents (a truncated frame is skipped, never terminating the
capture). -/
theorem truncated_frames_skipped (vdif : String) (fs : String → Bool)
    (overwrite : Bool) (cancel : ℕ → Bool) (dgs : List (List ℕ)) (evs : List Ev)
    (h : dump vdif fs overwrite cancel dgs = .ok evs) :
    fileWrites evs = (recvs evs).filter (fun d => d.length == VDIF_FRAME_BYTES)
    ∧ recvs evs = dgs.take (recvs evs).length
    ∧ (recvs evs).length = stopCount cancel 0 dgs.length
    ∧ ∀ d ∈ fileWrites evs, d.length = VDIF_FRAME_BYTES := by
  have hevs : evs = .openFile :: .openSocket :: dumpLoop cancel 0 dgs := by
    rw [dump] at h
    by_cases hex : !overwrite && fs vdif
    · rw [if_pos hex] at h
      exact Except.noConfusion h
    · rw [if_neg hex] at h
      exact (Except.ok.inj h).symm
  subst hevs
  have hspec := dumpLoop_spec cancel 0 dgs
  have hfw : fileWrites (Ev.openFile :: Ev.openSocket :: dumpLoop cancel 0 dgs) =
      fileWrites (dumpLoop cancel 0 dgs) := by
    simp [fileWrites]
  have hrv : recvs (Ev.openFile :: Ev.openSocket :: dumpLoop cancel 0 dgs) =
      recvs (dumpLoop cancel 0 dgs) := by
    simp [recvs]
  rw [hfw, hrv]
  refine ⟨hspec.1, hspec.2.1, hspec.2.2, ?_⟩
  intro d hd
  rw [hspec.1] at hd
  simpa using (List.mem_filter.mp hd).2

set_option maxRecDepth 10000 in
/-- Witness for C5: two full frames around one truncated datagram, with
cancellation observed at the third check: the file holds exactly the first
full frame and the truncated datagram is skipped without stopping the
loop. -/
theorem truncated_frames_skipped_witness :
    dump "out.vdif" (fun _ => false) false (fun k => decide (2 ≤ k))
        [List.replicate 1056 0, List.replicate 5 1, List.replicate 1056 2] =
      .ok (okOr (dump "out.vdif" (fun _ => false) false (fun k => decide (2 ≤ k))
        [List.replicate 1056 0, List.replicate 5 1, List.replicate 1056 2]) [])
    ∧ fileWrites (okOr (dump "out.vdif" (fun _ => false) false (fun k => decide (2 ≤ k))
        [List.replicate 1056 0, List.replicate 5 1, List.replicate 1056 2]) []) =
        [List.replicate 1056 0]
    ∧ fileWrites (okOr (dump "out.vdif" (fun _ => false) false (fun k => decide (2 ≤ k))
        [List.replicate 1056 0, List.replicate 5 1, List.replicate 1056 2]) []) =
        (recvs (okOr (dump "out.vdif" (fun _ => false) false (fun k => decide (2 ≤ k))
          [List.replicate 1056 0, List.replicate 5 1, List.replicate 1056 2]) [])).filter
          (fun d => d.length == VDIF_FRAME_BYTES) :=
  ⟨rfl, by decide,
    (truncated_frames_skipped "out.vdif" (fun _ => false) false (fun k => decide (2 ≤ k))
      [List.replicate 1056 0, List.replicate 5 1, List.replicate 1056 2] _ rfl).1⟩

/-- C6: when the output path already exists and overwrite is not
requested, `dump` fails with `FileExistsError` and performs no observable
action (no file is opened or created, no socket is opened); a first call
at a fresh path succeeds and creates the file, so a second call at the
same path without overwrite fails. -/
theorem overwrite_precondition (vdif : String) (fs : String → Bool)
    (cancel cancel' : ℕ → Bool) (dgs dgs' : List (List ℕ))
    (hfree : fs vdif = false) :
    (∀ fs' : String → Bool, fs' vdif = true →
      dump vdif fs' false cancel dgs = .error (.fileExistsError vdif))
    ∧ dump vdif fs false cancel dgs =
        .ok (.openFile :: .openSocket :: dumpLoop cancel 0 dgs)
    ∧ dumpFS vdif fs false cancel dgs vdif = true
    ∧ dump vdif (dumpFS vdif fs false cancel dgs) false cancel' dgs' =
        .error (.fileExistsError vdif) := by
  have hsecond : dumpFS vdif fs false cancel dgs vdif = true := by
    simp [dumpFS, dump, hfree]
  refine ⟨?_, by simp [dump, hfree], hsecond, by simp [dump, hsecond]⟩
  intro fs' hex
  simp [dump, hex]

/-- Witness for C6 on a fresh in-memory filesystem: the first call
succeeds, the second call at the same path fails with
`FileExistsError`. -/
theorem overwrite_precondition_witness :
    dump "a.vdif" (fun _ => false) false (fun _ => true) [] =
      .ok [.openFile, .openSocket]
    ∧ dump "a.vdif" (dumpFS "a.vdif" (fun _ => false) false (fun _ => true) [])
        false (fun _ => true) [] = .error (.fileExistsError "a.vdif") :=
  ⟨(overwrite_precondition "a.vdif" (fun _ => false) (fun _ => true) (fun _ => true)
      [] [] rfl).2.1,
    (overwrite_precondition "a.vdif" (fun _ => false) (fun _ => true) (fun _ => true)
      [] [] rfl).2.2.2⟩

/-- Counterexample for C7: with the cancellation flag already set at loop
entry and one full frame available, the worker performs no receive at all
(the loop condition is checked before the receive), contradicting the
claim that one receive is still performed. -/
theorem cancel_check_order_cex :
    dumpLoop (fun _ => true) 0 [List.replicate 1056 0] = []
    ∧ recvs (dumpLoop (fun _ => true) 0 [List.replicate 1056 0]) = []
    ∧ (recvs (dumpLoop (fun _ => true) 0 [List.replicate 1056 0])).length ≠ 1 := by
  refine ⟨rfl, rfl, ?_⟩
  intro h
  rw [show recvs (dumpLoop (fun _ => true) 0 [List.replicate 1056 0]) = [] from rfl] at h
  exact Nat.noConfusion h

/-- C7 (amended): the cancellation signal is checked once per iteration
before each receive: a worker whose flag is already set at a check
performs no further receive; the number of receives equals the number of
leading unset checks (capped by datagram availability); and a
cancellation set during a blocking receive is observed only after that
receive returns — the received datagram is still processed before the
next check. -/
theorem cancel_checked_before_receive (cancel : ℕ → Bool) (k : ℕ)
    (dgs : List (List ℕ)) :
    (cancel k = true → dumpLoop cancel k dgs = [])
    ∧ (recvs (dumpLoop cancel k dgs)).length = stopCount cancel k dgs.length
    ∧ ∀ d rest, cancel k = false → dgs = d :: rest →
        dumpLoop cancel k dgs =
          .recv d :: ((if d.length == VDIF_FRAME_BYTES then [.write d]
            else [.warnTruncated]) ++ dumpLoop cancel (k + 1) rest) := by
  refine ⟨?_, (dumpLoop_spec cancel k dgs).2.2, ?_⟩
  · intro hc
    cases dgs with
    | nil => rfl
    | cons d rest => simp [dumpLoop, hc]
  · intro d rest hc hdgs
    subst hdgs
    simp [dumpLoop, hc]

set_option maxRecDepth 10000 in
/-- Witness for C7 (amended): a pre-set flag yields an empty trace; with
the flag unset at the first check, the first datagram is received and
processed. -/
theorem cancel_checked_before_receive_witness :
    dumpLoop (fun _ => true) 0 [List.replicate 1056 0] = []
    ∧ dumpLoop (fun _ => false) 0 [List.replicate 5 0] =
        .recv (List.replicate 5 0) :: ([.warnTruncated] ++ []) :=
  ⟨(cancel_checked_before_receive (fun _ => true) 0 [List.replicate 1056 0]).1 rfl,
    (cancel_checked_before_receive (fun _ => false) 0 [List.replicate 5 0]).2.2
      (List.replicate 5 0) [] rfl rfl⟩

theorem alignTimes_error_shape (join : Join) (t1 t2 : List ℕ) (e : PyErr)
    (h : alignTimes join t1 t2 = .error e) : ∃ msg, e = .valueError msg := by
  cases join <;> simp only [alignTimes] at h
  case exact =>
    by_cases ht : t1 = t2
    · rw [if_pos ht] at h
      exact Except.noConfusion h
    · rw [if_neg ht] at h
      exact ⟨_, (Except.error.inj h).symm⟩
  case override =>
    by_cases ht : t1.length = t2.length
    · rw [if_pos ht] at h
      exact Except.noConfusion h
    · rw [if_neg ht] at h
      exact ⟨_, (Except.error.inj h).symm⟩
  all_goals exact Except.noConfusion h

theorem alignPair_error_shape {α : Type} (join : Join) (a b : DataArray α)
    (e : PyErr) (h : alignPair join a b = .error e) : ∃ msg, e = .valueError msg := by
  unfold alignPair at h
  cases hat : alignTimes join a.time b.time with
  | error e' =>
    rw [hat] at h
    exact (Except.error.inj h) ▸ alignTimes_error_shape join _ _ e' hat
  | ok t =>
    rw [hat] at h
    exact Except.noConfusion h

theorem alignPair_ok_shape {α : Type} (join : Join) (a b : DataArray α)
    (p : DataArray α × DataArray α) (h : alignPair join a b = .ok p) :
    ∃ t, p = (reindex a t, reindex b t) := by
  unfold alignPair at h
  cases hat : alignTimes join a.time b.time with
  | error e' =>
    rw [hat] at h
    exact Except.noConfusion h
  | ok t =>
    rw [hat] at h
    exact ⟨t, (Except.ok.inj h).symm⟩

theorem concatChan_error_shape {α : Type} (join : Join) (a b : DataArray α)
    (e : PyErr) (h : concatChan join a b = .error e) : ∃ msg, e = .valueError msg := by
  unfold concatChan at h
  cases hap : alignPair join a b with
  | error e' =>
    rw [hap] at h
    exact (Except.error.inj h) ▸ alignPair_error_shape join a b e' hap
  | ok p =>
    rw [hap] at h
    obtain ⟨a', b'⟩ := p
    exact Except.noConfusion h

theorem concatChan_ok_integ {α : Type} (join : Join) (a b : DataArray α)
    (c : DataArray α) (h : concatChan join a b = .ok c) :
    c.integ_time = a.integ_time := by
  unfold concatChan at h
  cases hap : alignPair join a b with
  | error e' =>
    rw [hap] at h
    exact Except.noConfusion h
  | ok p =>
    obtain ⟨t, rfl⟩ := alignPair_ok_shape join a b p hap
    rw [hap] at h
    rw [← Except.ok.inj h]
    rfl

theorem open_vdif_some_ok_integ {α : Type} (frames : List (Frame α)) (t : ℕ)
    (join : Join) (da : DataArray α)
    (h : open_vdif frames (some t) join = .ok da) : da.integ_time = t := by
  simp only [open_vdif, resolveIntegTime] at h
  by_cases hm : t ∈ integTimes
  · rw [if_pos hm] at h
    exact concatChan_ok_integ join _ _ da h
  · rw [if_neg hm] at h
    exact Except.noConfusion h

theorem open_vdif_some_error_shape {α : Type} (frames : List (Frame α)) (t : ℕ)
    (join : Join) (e : PyErr)
    (h : open_vdif frames (some t) join = .error e) : ∃ msg, e = .valueError msg := by
  simp only [open_vdif, resolveIntegTime] at h
  by_cases hm : t ∈ integTimes
  · rw [if_pos hm] at h
    exact concatChan_error_shape join _ _ e h
  · rw [if_neg hm] at h
    exact ⟨_, (Except.error.inj h).symm⟩

/-- C4: merging two decoded sidebands whose resolved integration times
differ fails with the (RuntimeError) consistency error; no dataset is
produced and neither value is coerced. -/
theorem sideband_integ_mismatch {α : Type} (usb lsb : List (Frame α))
    (ch itf : ℕ) (fr : String) (it? : Option ℕ) (sb : Option String)
    (sc : Option ℤ) (join : Join) (daU daL : DataArray α)
    (p : DataArray α × DataArray α)
    (hch : ch ∈ chassisVals) (hitf : itf ∈ interfaceVals) (hfr : fr ∈ freqRanges)
    (hU : open_vdif usb it? join = .ok daU)
    (hL : open_vdif lsb it? join = .ok daL)
    (hal : alignPair join daU daL = .ok p)
    (hne : daU.integ_time ≠ daL.integ_time) :
    open_vdifs usb lsb ch itf fr it? sb sc join =
      .error (.runtimeError "USB/LSB spectral integration times must be same.") := by
  obtain ⟨t, rfl⟩ := alignPair_ok_shape join daU daL p hal
  have hne' : (reindex daU t).integ_time ≠ (reindex daL t).integ_time := hne
  simp only [open_vdifs, if_neg (not_not_intro hch), if_neg (not_not_intro hitf),
    if_neg (not_not_intro hfr), hU, hL, hal, if_pos hne']

/-- Witness for C4: the USB batch infers 100 ms, the LSB batch infers
200 ms, and the merge fails with the consistency error. -/
theorem sideband_integ_mismatch_witness :
    open_vdif usbFrames none .inner = .ok usbDA
    ∧ open_vdif lsbFrames none .inner = .ok lsbDA
    ∧ alignPair .inner usbDA lsbDA = .ok alignedUsbLsb
    ∧ usbDA.integ_time = 100 ∧ lsbDA.integ_time = 200
    ∧ open_vdifs usbFrames lsbFrames 1 1 "inner" none none none .inner =
        .error (.runtimeError "USB/LSB spectral integration times must be same.") :=
  ⟨rfl, rfl, rfl, rfl, rfl,
    sideband_integ_mismatch usbFrames lsbFrames 1 1 "inner" none none none .inner
      usbDA lsbDA alignedUsbLsb (by decide) (by decide) (by decide) rfl rfl rfl
      (by decide)⟩

/-- C9: the sideband consistency ("USB/LSB spectral integration times
must be same") error can only arise when the integration time is
inferred: whenever `open_vdifs` fails with it, no explicit integration
time was supplied (with a supplied value, both decodes resolve to that
value and the mismatch branch is unreachable). -/
theorem mismatch_error_needs_inference {α : Type} (usb lsb : List (Frame α))
    (ch itf : ℕ) (fr : String) (it? : Option ℕ) (sb : Option String)
    (sc : Option ℤ) (join : Join)
    (h : open_vdifs usb lsb ch itf fr it? sb sc join =
      .error (.runtimeError "USB/LSB spectral integration times must be same.")) :
    it? = none := by
  cases it? with
  | none => rfl
  | some t =>
    exfalso
    simp only [open_vdifs] at h
    by_cases h1 : ch ∉ chassisVals
    · rw [if_pos h1] at h
      exact PyErr.noConfusion (Except.error.inj h)
    rw [if_neg h1] at h
    by_cases h2 : itf ∉ interfaceVals
    · rw [if_pos h2] at h
      exact PyErr.noConfusion (Except.error.inj h)
    rw [if_neg h2] at h
    by_cases h3 : fr ∉ freqRanges
    · rw [if_pos h3] at h
      exact PyErr.noConfusion (Except.error.inj h)
    rw [if_neg h3] at h
    cases hU : open_vdif usb (some t) join with
    | error e =>
      simp only [hU] at h
      obtain ⟨msg, rfl⟩ := open_vdif_some_error_shape usb t join e hU
      exact PyErr.noConfusion (Except.error.inj h)
    | ok daU =>
      simp only [hU] at h
      cases hL : open_vdif lsb (some t) join with
      | error e =>
        simp only [hL] at h
        obtain ⟨msg, rfl⟩ := open_vdif_some_error_shape lsb t join e hL
        exact PyErr.noConfusion (Except.error.inj h)
      | ok daL =>
        simp only [hL] at h
        cases hA : alignPair join daU daL with
        | error e =>
          simp only [hA] at h
          obtain ⟨msg, rfl⟩ := alignPair_error_shape join daU daL e hA
          exact PyErr.noConfusion (Except.error.inj h)
        | ok p =>
          obtain ⟨t', rfl⟩ := alignPair_ok_shape join daU daL p hA
          simp only [hA] at h
          have heq : (reindex daU t').integ_time = (reindex daL t').integ_time := by
            show daU.integ_time = daL.integ_time
            rw [open_vdif_some_ok_integ usb t join daU hU,
              open_vdif_some_ok_integ lsb t join daL hL]
          rw [if_neg (not_not_intro heq)] at h
          exact Except.noConfusion h

/-- Witness for C9: a concrete merge that does fail with the mismatch
error indeed had no supplied integration time. -/
theorem mismatch_error_needs_inference_witness :
    open_vdifs usbFrames lsbFrames 1 1 "inner" none none none .inner =
      .error (.runtimeError "USB/LSB spectral integration times must be same.")
    ∧ (none : Option ℕ) = none :=
  ⟨rfl, mismatch_error_needs_inference usbFrames lsbFrames 1 1 "inner" none none
    none .inner rfl⟩

theorem open_vdifs_ok_freq {α : Type} (usb lsb : List (Frame α)) (ch itf : ℕ)
    (fr : String) (it? : Option ℕ) (sb : Option String) (sc : Option ℤ)
    (join : Join) (r : Dataset α)
    (h : open_vdifs usb lsb ch itf fr it? sb sc join = .ok r) :
    r.freq = if fr = "inner" then FREQ_INNER else FREQ_OUTER.reverse := by
  simp only [open_vdifs] at h
  by_cases h1 : ch ∉ chassisVals
  · rw [if_pos h1] at h
    exact Except.noConfusion h
  rw [if_neg h1] at h
  by_cases h2 : itf ∉ interfaceVals
  · rw [if_pos h2] at h
    exact Except.noConfusion h
  rw [if_neg h2] at h
  by_cases h3 : fr ∉ freqRanges
  · rw [if_pos h3] at h
    exact Except.noConfusion h
  rw [if_neg h3] at h
  cases hU : open_vdif usb it? join with
  | error e =>
    simp only [hU] at h
    exact Except.noConfusion h
  | ok daU =>
    simp only [hU] at h
    cases hL : open_vdif lsb it? join with
    | error e =>
      simp only [hL] at h
      exact Except.noConfusion h
    | ok daL =>
      simp only [hL] at h
      cases hA : alignPair join daU daL with
      | error e =>
        simp only [hA] at h
        exact Except.noConfusion h
      | ok p =>
        obtain ⟨t', rfl⟩ := alignPair_ok_shape join daU daL p hA
        simp only [hA] at h
        by_cases hne : (reindex daU t').integ_time ≠ (reindex daL t').integ_time
        · rw [if_pos hne] at h
          exact Except.noConfusion h
        · rw [if_neg hne] at h
          rw [← Except.ok.inj h]

theorem freq_map_pairwise (s n : ℕ) :
    ((List.range' s n).map fun k : ℕ => FREQ_INTERVAL * (k : ℚ)).Pairwise (· < ·) := by
  rw [List.pairwise_map]
  exact (List.pairwise_lt_range' s n).imp fun hab =>
    mul_lt_mul_of_pos_left (by exact_mod_cast hab) (by norm_num [FREQ_INTERVAL])

/-- C8: the frequency-range selector fixes the order of the assembled
frequency coordinate: `freq_range = "inner"` yields the ascending
channel frequencies `0.02 GHz * (0, ..., 511)` and `freq_range = "outer"`
yields the mirrored, descending frequencies `0.02 GHz * (512, ..., 1023)`
reversed, on every successful assembly. -/
theorem freq_range_order {α : Type} (usb lsb : List (Frame α)) (ch itf : ℕ)
    (it? : Option ℕ) (sb : Option String) (sc : Option ℤ) (join : Join)
    (r : Dataset α) :
    (open_vdifs usb lsb ch itf "inner" it? sb sc join = .ok r →
      r.freq = FREQ_INNER ∧ r.freq.Pairwise (· < ·))
    ∧ (open_vdifs usb lsb ch itf "outer" it? sb sc join = .ok r →
      r.freq = FREQ_OUTER.reverse ∧ r.freq.Pairwise (· > ·)) := by
  constructor
  · intro h
    have hf := open_vdifs_ok_freq usb lsb ch itf "inner" it? sb sc join r h
    rw [if_pos rfl] at hf
    exact ⟨hf, hf ▸ freq_map_pairwise 0 512⟩
  · intro h
    have hf := open_vdifs_ok_freq usb lsb ch itf "outer" it? sb sc join r h
    rw [if_neg (by decide)] at hf
    refine ⟨hf, hf ▸ ?_⟩
    rw [List.pairwise_reverse]
    exact freq_map_pairwise 512 512

/-- Witness for C8: concrete successful assemblies for both frequency
ranges, with the frequency coordinate evaluated. -/
theorem freq_range_order_witness :
    open_vdifs usbFrames usbFrames 1 1 "inner" (some 100) none none .inner =
      .ok innerDS
    ∧ innerDS.freq = FREQ_INNER
    ∧ open_vdifs usbFrames usbFrames 1 1 "outer" (some 100) none none .inner =
      .ok outerDS
    ∧ outerDS.freq = FREQ_OUTER.reverse :=
  ⟨rfl,
    ((freq_range_order usbFrames usbFrames 1 1 (some 100) none none .inner
      innerDS).1 rfl).1,
    rfl,
    ((freq_range_order usbFrames usbFrames 1 1 (some 100) none none .inner
      outerDS).2 rfl).1⟩

end Drs4
